import Mathlib

set_option maxRecDepth 10000

/-!
Verification of the FastNetMon core against its specification.

The development shallowly embeds the data model of `fastnetmon_types.hpp`
(enums, counter records, ban settings, attack details) and, where a function
lives outside the vendored sources (the Flow Spec serialisers, the Patricia
trie, the attack-description serialiser), a model built from the
specification's description of it.  Machine integers are modelled as `Nat`:
every operation proved about here (comparisons, decimal printing, division)
is overflow-free on the values involved.
-/

/- ===================== Flow Spec vector serialisers ===================== -/

/-- Modelled from the spec: `serialize_vector_by_string` (declared in
`fast_library.hpp`, implementation not under `src/`, only its tests are).
The spec: values are joined by the separator, `v1+sep+v2+...+vn`; an empty
list yields the empty string. -/
def serialize_vector_by_string (l : List String) (sep : String) : String :=
  match l with
  | [] => ""
  | [v] => v
  | v :: w :: rest => v ++ sep ++ serialize_vector_by_string (w :: rest) sep

/-- Modelled from the spec: `serialize_vector_by_string_with_prefix`
(declared in `fast_library.hpp`, implementation not under `src/`, only its
tests are).  The spec: `serialize(list, sep, prefix)` yields
`prefix+v1+sep+prefix+v2+...`; an empty list yields the empty string.
Numeric values are printed as decimal integers. -/
def serialize_vector_by_string_with_prefix (l : List Nat) (sep pfx : String) : String :=
  match l with
  | [] => ""
  | [v] => pfx ++ Nat.repr v
  | v :: w :: rest =>
      pfx ++ Nat.repr v ++ sep ++ serialize_vector_by_string_with_prefix (w :: rest) sep pfx

/-- The part of an intercalation after its first value: one separator and one
value per remaining list element. -/
def joined_tail (sep : String) : List String → String
  | [] => ""
  | a :: as => sep ++ a ++ joined_tail sep as

/- ===================== BGP Flow Spec action ===================== -/

/-- Modelled from the spec: the action types of `bgp_protocol.hpp` are not
under `src/` (only their tests are).  The action grammar lists accept,
discard and rate-limit. -/
inductive bgp_flow_spec_action_types_t where
  | FLOW_SPEC_ACTION_ACCEPT
  | FLOW_SPEC_ACTION_DISCARD
  | FLOW_SPEC_ACTION_RATE_LIMIT
deriving DecidableEq

/-- Modelled from the spec: `bgp_flow_spec_action_t` of `bgp_protocol.hpp` is
not under `src/` (only its tests are).  A default-constructed action has the
accept type (the spec's action grammar marks accept as the default). -/
structure bgp_flow_spec_action_t where
  action_type : bgp_flow_spec_action_types_t := bgp_flow_spec_action_types_t.FLOW_SPEC_ACTION_ACCEPT
  rate_limit_value : Nat := 0
deriving DecidableEq

/-- Setter for the action type, modelling the C++ mutator `set_type`. -/
def bgp_flow_spec_action_t.set_type (a : bgp_flow_spec_action_t)
    (t : bgp_flow_spec_action_types_t) : bgp_flow_spec_action_t :=
  { a with action_type := t }

/-- Setter for the rate limit, modelling the C++ mutator `set_rate_limit`. -/
def bgp_flow_spec_action_t.set_rate_limit (a : bgp_flow_spec_action_t)
    (r : Nat) : bgp_flow_spec_action_t :=
  { a with rate_limit_value := r }

/-- Modelled from the spec: serialisation of a Flow Spec action.  Action
grammar: accept serialises to "accept;", discard to "discard;", rate-limit
to "rate-limit N;" where N is the byte-rate cap as a decimal integer. -/
def bgp_flow_spec_action_t.serialize (a : bgp_flow_spec_action_t) : String :=
  match a.action_type with
  | bgp_flow_spec_action_types_t.FLOW_SPEC_ACTION_ACCEPT => "accept;"
  | bgp_flow_spec_action_types_t.FLOW_SPEC_ACTION_DISCARD => "discard;"
  | bgp_flow_spec_action_types_t.FLOW_SPEC_ACTION_RATE_LIMIT =>
      "rate-limit " ++ Nat.repr a.rate_limit_value ++ ";"

/- ===================== Enums from fastnetmon_types.hpp ===================== -/

/-- Modelled from the spec: `direction_t` is declared outside `src/`
(in `fastnetmon_networks.hpp`); `fastnetmon_types.hpp` uses the values
INCOMING, OUTGOING and OTHER, and INTERNAL completes the traffic
directions. -/
inductive direction_t where
  | INCOMING
  | OUTGOING
  | INTERNAL
  | OTHER
deriving DecidableEq

/-- Sort fields, from `enum sort_type_t { PACKETS, BYTES, FLOWS }`. -/
inductive sort_type_t where
  | PACKETS
  | BYTES
  | FLOWS
deriving DecidableEq

/-- Attack severities, from `enum attack_severity_t`. -/
inductive attack_severity_t where
  | ATTACK_SEVERITY_LOW
  | ATTACK_SEVERITY_MIDDLE
  | ATTACK_SEVERITY_HIGH
deriving DecidableEq

/-- Sources of attack detection, from `enum class attack_detection_source_t`. -/
inductive attack_detection_source_t where
  | Automatic
  | Manual
  | Other
deriving DecidableEq

/-- Direction of the triggering threshold, from
`enum class attack_detection_direction_type_t`. -/
inductive attack_detection_direction_type_t where
  | unknown
  | incoming
  | outgoing
deriving DecidableEq

/-- Threshold kinds, from `enum class attack_detection_threshold_type_t`. -/
inductive attack_detection_threshold_type_t where
  | unknown
  | packets_per_second
  | bytes_per_second
  | flows_per_second
  | tcp_packets_per_second
  | udp_packets_per_second
  | icmp_packets_per_second
  | tcp_bytes_per_second
  | udp_bytes_per_second
  | icmp_bytes_per_second
  | tcp_syn_packets_per_second
  | tcp_syn_bytes_per_second
deriving DecidableEq

/-- Attack types, from `enum attack_type_t` (values 1..5). -/
inductive attack_type_t where
  | ATTACK_UNKNOWN
  | ATTACK_SYN_FLOOD
  | ATTACK_ICMP_FLOOD
  | ATTACK_UDP_FLOOD
  | ATTACK_IP_FRAGMENTATION_FLOOD
deriving DecidableEq

/- ===================== Counters and comparator ===================== -/

/-- Modelled from the spec: one in/out section of `subnet_counter_t`
(`subnet_counter.hpp` is not under `src/`).  At a snapshot the fields hold
the per-second rates of the section. -/
structure traffic_counters_t where
  in_bytes : Nat := 0
  out_bytes : Nat := 0
  in_packets : Nat := 0
  out_packets : Nat := 0
deriving DecidableEq

/-- Modelled from the spec: `subnet_counter_t` (`subnet_counter.hpp` is not
under `src/`).  Sub-sections total, TCP, TCP-SYN, UDP, ICMP and
IP-fragmented, plus per-direction flow counters; `fastnetmon_types.hpp`
accesses `total.in_packets`, `total.out_packets`, `total.in_bytes`,
`total.out_bytes`, `in_flows` and `out_flows` on it. -/
structure subnet_counter_t where
  total : traffic_counters_t := {}
  tcp : traffic_counters_t := {}
  tcp_syn : traffic_counters_t := {}
  udp : traffic_counters_t := {}
  icmp : traffic_counters_t := {}
  fragmented : traffic_counters_t := {}
  in_flows : Nat := 0
  out_flows : Nat := 0
deriving DecidableEq

/-- The comparison predicate `TrafficComparatorClass<T>::operator()` from
`fastnetmon_types.hpp`, for elements that are pairs whose second component
is a `subnet_counter_t` (the shape the C++ template is instantiated at). -/
def TrafficComparatorClass_compare {α : Type} (sort_direction : direction_t)
    (sort_field : sort_type_t) (a b : α × subnet_counter_t) : Bool :=
  if sort_field = sort_type_t.FLOWS then
    if sort_direction = direction_t.INCOMING then
      decide (a.2.in_flows > b.2.in_flows)
    else if sort_direction = direction_t.OUTGOING then
      decide (a.2.out_flows > b.2.out_flows)
    else
      false
  else if sort_field = sort_type_t.PACKETS then
    if sort_direction = direction_t.INCOMING then
      decide (a.2.total.in_packets > b.2.total.in_packets)
    else if sort_direction = direction_t.OUTGOING then
      decide (a.2.total.out_packets > b.2.total.out_packets)
    else
      false
  else if sort_field = sort_type_t.BYTES then
    if sort_direction = direction_t.INCOMING then
      decide (a.2.total.in_bytes > b.2.total.in_bytes)
    else if sort_direction = direction_t.OUTGOING then
      decide (a.2.total.out_bytes > b.2.total.out_bytes)
    else
      false
  else
    false

/- ===================== Ban settings ===================== -/

/-- `ban_settings_t` from `fastnetmon_types.hpp`; the field defaults are
exactly the values assigned by its default constructor. -/
structure ban_settings_t where
  enable_ban : Bool := false
  enable_ban_ipv6 : Bool := false
  enable_ban_for_pps : Bool := false
  enable_ban_for_bandwidth : Bool := false
  enable_ban_for_flows_per_second : Bool := false
  enable_ban_for_tcp_pps : Bool := false
  enable_ban_for_tcp_bandwidth : Bool := false
  enable_ban_for_udp_pps : Bool := false
  enable_ban_for_udp_bandwidth : Bool := false
  enable_ban_for_icmp_pps : Bool := false
  enable_ban_for_icmp_bandwidth : Bool := false
  ban_threshold_tcp_mbps : Nat := 0
  ban_threshold_tcp_pps : Nat := 0
  ban_threshold_udp_mbps : Nat := 0
  ban_threshold_udp_pps : Nat := 0
  ban_threshold_icmp_mbps : Nat := 0
  ban_threshold_icmp_pps : Nat := 0
  ban_threshold_mbps : Nat := 0
  ban_threshold_flows : Nat := 0
  ban_threshold_pps : Nat := 0
deriving DecidableEq

/-- A default-constructed `ban_settings_t`. -/
def default_ban_settings : ban_settings_t := {}

/-- Modelled from the spec: the threshold evaluator's per-rule check (the
evaluator is not under `src/`): an enabled rule fires when the measured
rate exceeds its numeric threshold; a disabled rule never fires. -/
def ban_rule_fires (enabled : Bool) (threshold rate : Nat) : Bool :=
  enabled && decide (rate > threshold)

/- ===================== UUIDs and attack details ===================== -/

/-- Hexadecimal digit character for a value below 16. -/
def hexDigitChar (n : Nat) : Char :=
  if n < 10 then Char.ofNat (48 + n) else Char.ofNat (87 + n)

/-- Two-digit lowercase hexadecimal rendering of one byte. -/
def byte_to_hex (b : Nat) : String :=
  String.mk [hexDigitChar (b / 16 % 16), hexDigitChar (b % 16)]

/-- Concatenated hexadecimal rendering of a byte list. -/
def bytes_to_hex (l : List Nat) : String :=
  String.join (l.map byte_to_hex)

/-- Modelled from the spec: `boost::uuids::to_string` on a 16-byte UUID —
the hex bytes in order, dashes after bytes 4, 6, 8 and 10. -/
def uuid_to_string (u : List Nat) : String :=
  bytes_to_hex (u.take 4) ++ "-" ++ bytes_to_hex ((u.drop 4).take 2) ++ "-"
    ++ bytes_to_hex ((u.drop 6).take 2) ++ "-" ++ bytes_to_hex ((u.drop 8).take 2)
    ++ "-" ++ bytes_to_hex (u.drop 10)

/-- The all-zero UUID: the value of a default-constructed
`boost::uuids::uuid{}`. -/
def zero_uuid : List Nat := List.replicate 16 0

/-- Modelled from the spec: `subnet_cidr_mask_t`
(`fastnetmon_networks.hpp` is not under `src/`): an address and
prefix-length tuple. -/
structure subnet_cidr_mask_t where
  subnet_address : Nat := 0
  cidr_prefix_length : Nat := 0
deriving DecidableEq

/-- `attack_details_t` from `fastnetmon_types.hpp`.  The C++ class derives
from `subnet_counter_t`; the embedding keeps the counters in the base
structure via `extends`.  Field defaults are the in-class initialisers; the
UUID is 16 bytes, all zero by default (`boost::uuids::uuid{}`).  The
`pcap_attack_dump` packet ring is external state (`packet_storage.hpp`,
out of the spec's scope) and no claim touches it, so it is omitted. -/
structure attack_details_t extends subnet_counter_t where
  host_group : String := ""
  parent_host_group : String := ""
  attack_direction : direction_t := direction_t.OTHER
  attack_power : Nat := 0
  max_attack_power : Nat := 0
  attack_protocol : Nat := 0
  average_in_bytes : Nat := 0
  average_out_bytes : Nat := 0
  average_in_packets : Nat := 0
  average_out_packets : Nat := 0
  average_in_flows : Nat := 0
  average_out_flows : Nat := 0
  ban_timestamp : Int := 0
  unban_enabled : Bool := true
  ban_time : Int := 0
  ipv6 : Bool := false
  customer_network : subnet_cidr_mask_t := {}
  attack_detection_source : attack_detection_source_t := attack_detection_source_t.Automatic
  attack_uuid : List Nat := zero_uuid
  attack_severity : attack_severity_t := attack_severity_t.ATTACK_SEVERITY_MIDDLE
  attack_detection_threshold : attack_detection_threshold_type_t := attack_detection_threshold_type_t.unknown
  attack_detection_direction : attack_detection_direction_type_t := attack_detection_direction_type_t.unknown
deriving DecidableEq

/-- `attack_details_t::get_protocol_name` from `fastnetmon_types.hpp`. -/
def attack_details_t.get_protocol_name (a : attack_details_t) : String :=
  if a.ipv6 then "IPv6" else "IPv4"

/-- `attack_details_t::get_attack_uuid_as_string` from
`fastnetmon_types.hpp`: the textual form given by `boost::uuids::to_string`. -/
def attack_details_t.get_attack_uuid_as_string (a : attack_details_t) : String :=
  uuid_to_string a.attack_uuid

/-- `attack_details_t::generate_uuid` from `fastnetmon_types.hpp`.  The
random generator may throw on entropy shortage; the embedding takes the
generator's outcome as an argument, `none` modelling a throw.  On a throw
the catch block returns `false` and `attack_uuid` is not assigned; on
success the fresh UUID is stored and the method returns `true`. -/
def attack_details_t.generate_uuid (a : attack_details_t)
    (gen : Option (List Nat)) : attack_details_t × Bool :=
  match gen with
  | none => (a, false)
  | some u => ({ a with attack_uuid := u }, true)

/-- A default-constructed `attack_details_t`. -/
def default_attack_details : attack_details_t := {}

/- ===================== Attack description ===================== -/

/-- Modelled from the spec: the speed-to-mbps conversion used by the attack
description (`fast_library` is not under `src/`) — bytes per second to
megabits per second.  It maps a zero rate to zero. -/
def convert_speed_to_mbps (bytes_per_second : Nat) : Nat :=
  bytes_per_second * 8 / 1024 / 1024

/-- Printable attack type names, per `enum attack_type_t`. -/
def get_printable_attack_name : attack_type_t → String
  | attack_type_t.ATTACK_UNKNOWN => "unknown"
  | attack_type_t.ATTACK_SYN_FLOOD => "syn_flood"
  | attack_type_t.ATTACK_ICMP_FLOOD => "icmp_flood"
  | attack_type_t.ATTACK_UDP_FLOOD => "udp_flood"
  | attack_type_t.ATTACK_IP_FRAGMENTATION_FLOOD => "ip_fragmentation"

/-- Printable traffic direction names. -/
def get_direction_name : direction_t → String
  | direction_t.INCOMING => "incoming"
  | direction_t.OUTGOING => "outgoing"
  | direction_t.INTERNAL => "internal"
  | direction_t.OTHER => "other"

/-- Printable IP protocol names by protocol number; the default protocol 0
prints "unknown". -/
def get_printable_protocol_name (p : Nat) : String :=
  if p = 1 then "icmp" else if p = 6 then "tcp" else if p = 17 then "udp" else "unknown"

/-- Modelled from the spec: classification of an attack into an
`attack_type_t` (the implementation is not under `src/`).  A protocol whose
packet rate dominates the total in the attack's direction (more than nine
tenths) names the flood; a blank attack, whose direction is OTHER and whose
counters are zero, classifies as unknown. -/
def detect_attack_type (a : attack_details_t) : attack_type_t :=
  if a.attack_direction = direction_t.INCOMING then
    if a.tcp_syn.in_packets * 10 > a.total.in_packets * 9 then
      attack_type_t.ATTACK_SYN_FLOOD
    else if a.icmp.in_packets * 10 > a.total.in_packets * 9 then
      attack_type_t.ATTACK_ICMP_FLOOD
    else if a.fragmented.in_packets * 10 > a.total.in_packets * 9 then
      attack_type_t.ATTACK_IP_FRAGMENTATION_FLOOD
    else if a.udp.in_packets * 10 > a.total.in_packets * 9 then
      attack_type_t.ATTACK_UDP_FLOOD
    else
      attack_type_t.ATTACK_UNKNOWN
  else if a.attack_direction = direction_t.OUTGOING then
    if a.tcp_syn.out_packets * 10 > a.total.out_packets * 9 then
      attack_type_t.ATTACK_SYN_FLOOD
    else if a.icmp.out_packets * 10 > a.total.out_packets * 9 then
      attack_type_t.ATTACK_ICMP_FLOOD
    else if a.fragmented.out_packets * 10 > a.total.out_packets * 9 then
      attack_type_t.ATTACK_IP_FRAGMENTATION_FLOOD
    else if a.udp.out_packets * 10 > a.total.out_packets * 9 then
      attack_type_t.ATTACK_UDP_FLOOD
    else
      attack_type_t.ATTACK_UNKNOWN
  else
    attack_type_t.ATTACK_UNKNOWN

/-- Modelled from the spec: `serialize_attack_description` (implementation
not under `src/`, only its test is).  One line per metric, labels and
ordering as in the sample scenario, rates printed in decimal, traffic in
mbps. -/
def serialize_attack_description (a : attack_details_t) : String :=
  "Attack type: " ++ get_printable_attack_name (detect_attack_type a) ++ "\n"
  ++ "Initial attack power: " ++ Nat.repr a.attack_power ++ " packets per second\n"
  ++ "Peak attack power: " ++ Nat.repr a.max_attack_power ++ " packets per second\n"
  ++ "Attack direction: " ++ get_direction_name a.attack_direction ++ "\n"
  ++ "Attack protocol: " ++ get_printable_protocol_name a.attack_protocol ++ "\n"
  ++ "Total incoming traffic: " ++ Nat.repr (convert_speed_to_mbps a.total.in_bytes) ++ " mbps\n"
  ++ "Total outgoing traffic: " ++ Nat.repr (convert_speed_to_mbps a.total.out_bytes) ++ " mbps\n"
  ++ "Total incoming pps: " ++ Nat.repr a.total.in_packets ++ " packets per second\n"
  ++ "Total outgoing pps: " ++ Nat.repr a.total.out_packets ++ " packets per second\n"
  ++ "Total incoming flows: " ++ Nat.repr a.in_flows ++ " flows per second\n"
  ++ "Total outgoing flows: " ++ Nat.repr a.out_flows ++ " flows per second\n"
  ++ "Average incoming traffic: " ++ Nat.repr (convert_speed_to_mbps a.average_in_bytes) ++ " mbps\n"
  ++ "Average outgoing traffic: " ++ Nat.repr (convert_speed_to_mbps a.average_out_bytes) ++ " mbps\n"
  ++ "Average incoming pps: " ++ Nat.repr a.average_in_packets ++ " packets per second\n"
  ++ "Average outgoing pps: " ++ Nat.repr a.average_out_packets ++ " packets per second\n"
  ++ "Average incoming flows: " ++ Nat.repr a.average_in_flows ++ " flows per second\n"
  ++ "Average outgoing flows: " ++ Nat.repr a.average_out_flows ++ " flows per second\n"
  ++ "Incoming ip fragmented traffic: " ++ Nat.repr (convert_speed_to_mbps a.fragmented.in_bytes) ++ " mbps\n"
  ++ "Outgoing ip fragmented traffic: " ++ Nat.repr (convert_speed_to_mbps a.fragmented.out_bytes) ++ " mbps\n"
  ++ "Incoming ip fragmented pps: " ++ Nat.repr a.fragmented.in_packets ++ " packets per second\n"
  ++ "Outgoing ip fragmented pps: " ++ Nat.repr a.fragmented.out_packets ++ " packets per second\n"
  ++ "Incoming tcp traffic: " ++ Nat.repr (convert_speed_to_mbps a.tcp.in_bytes) ++ " mbps\n"
  ++ "Outgoing tcp traffic: " ++ Nat.repr (convert_speed_to_mbps a.tcp.out_bytes) ++ " mbps\n"
  ++ "Incoming tcp pps: " ++ Nat.repr a.tcp.in_packets ++ " packets per second\n"
  ++ "Outgoing tcp pps: " ++ Nat.repr a.tcp.out_packets ++ " packets per second\n"
  ++ "Incoming syn tcp traffic: " ++ Nat.repr (convert_speed_to_mbps a.tcp_syn.in_bytes) ++ " mbps\n"
  ++ "Outgoing syn tcp traffic: " ++ Nat.repr (convert_speed_to_mbps a.tcp_syn.out_bytes) ++ " mbps\n"
  ++ "Incoming syn tcp pps: " ++ Nat.repr a.tcp_syn.in_packets ++ " packets per second\n"
  ++ "Outgoing syn tcp pps: " ++ Nat.repr a.tcp_syn.out_packets ++ " packets per second\n"
  ++ "Incoming udp traffic: " ++ Nat.repr (convert_speed_to_mbps a.udp.in_bytes) ++ " mbps\n"
  ++ "Outgoing udp traffic: " ++ Nat.repr (convert_speed_to_mbps a.udp.out_bytes) ++ " mbps\n"
  ++ "Incoming udp pps: " ++ Nat.repr a.udp.in_packets ++ " packets per second\n"
  ++ "Outgoing udp pps: " ++ Nat.repr a.udp.out_packets ++ " packets per second\n"
  ++ "Incoming icmp traffic: " ++ Nat.repr (convert_speed_to_mbps a.icmp.in_bytes) ++ " mbps\n"
  ++ "Outgoing icmp traffic: " ++ Nat.repr (convert_speed_to_mbps a.icmp.out_bytes) ++ " mbps\n"
  ++ "Incoming icmp pps: " ++ Nat.repr a.icmp.in_packets ++ " packets per second\n"
  ++ "Outgoing icmp pps: " ++ Nat.repr a.icmp.out_packets ++ " packets per second\n"

/- ===================== Patricia trie model ===================== -/

/-- An address prefix for the Patricia trie: the network address as an
unsigned value of the key width, plus the prefix bit length. -/
structure prefix_t where
  network : Nat
  bitlen : Nat
deriving DecidableEq

/-- An address lies in a prefix when both agree on the topmost `bitlen`
bits of the `w`-bit key space. -/
def prefix_covers_address (w : Nat) (p : prefix_t) (a : Nat) : Bool :=
  a / 2 ^ (w - p.bitlen) == p.network / 2 ^ (w - p.bitlen)

/-- Modelled from the spec: the Patricia trie (its implementation is not
under `src/`, only its tests are).  The spec defines `insert` and
`search_best` as longest-prefix match over the set of inserted prefixes;
the trie is modelled by the list of inserted prefixes and `search_best`
scans it for the longest covering prefix, as `patricia_search_best2` with
`inclusive = 1`. -/
def patricia_search_best (w : Nat) (a : Nat) : List prefix_t → Option prefix_t
  | [] => none
  | p :: rest =>
    match patricia_search_best w a rest with
    | none => if prefix_covers_address w p a then some p else none
    | some q =>
        if prefix_covers_address w p a && decide (q.bitlen < p.bitlen) then some p
        else some q

/-- The IPv6 prefix 2a03:f480::/32 as a 128-bit Patricia key. -/
def test_prefix_v6 : prefix_t :=
  { network := 0x2a03f480000000000000000000000000, bitlen := 32 }

/-- The IPv6 address 2a03:2880:2130:cf05:face:b00c::1, outside
2a03:f480::/32. -/
def outside_address_v6 : Nat := 0x2a0328802130cf05faceb00c00000001

/-- The IPv6 address 2a03:f480:2130:cf05:face:b00c::1, inside
2a03:f480::/32. -/
def inside_address_v6 : Nat := 0x2a03f4802130cf05faceb00c00000001

/- ===================== Threshold tie-break ===================== -/

/-- Modelled from the spec: the threshold evaluator's fixed tie-break
priority — TCP-SYN pps, TCP pps, UDP pps, ICMP pps, TCP bps, UDP bps,
ICMP bps, overall pps, overall bps, flows/s (the evaluator is not under
`src/`; `src/` holds the `attack_detection_threshold_type_t` enum). -/
def attack_detection_priority_order : List attack_detection_threshold_type_t :=
  [attack_detection_threshold_type_t.tcp_syn_packets_per_second,
   attack_detection_threshold_type_t.tcp_packets_per_second,
   attack_detection_threshold_type_t.udp_packets_per_second,
   attack_detection_threshold_type_t.icmp_packets_per_second,
   attack_detection_threshold_type_t.tcp_bytes_per_second,
   attack_detection_threshold_type_t.udp_bytes_per_second,
   attack_detection_threshold_type_t.icmp_bytes_per_second,
   attack_detection_threshold_type_t.packets_per_second,
   attack_detection_threshold_type_t.bytes_per_second,
   attack_detection_threshold_type_t.flows_per_second]

/-- Modelled from the spec: the evaluator reports as the triggering
`attack_detection_threshold` the first rule in the priority order that
exceeds; `exceeds` tells which enabled rules exceed in this tick. -/
def select_triggered_threshold
    (exceeds : attack_detection_threshold_type_t → Bool) :
    Option attack_detection_threshold_type_t :=
  attack_detection_priority_order.find? exceeds

/-- Exceedance profile of a host whose TCP-SYN pps and overall pps rules
both exceed in the same tick. -/
def syn_and_total_exceed : attack_detection_threshold_type_t → Bool
  | attack_detection_threshold_type_t.tcp_syn_packets_per_second => true
  | attack_detection_threshold_type_t.packets_per_second => true
  | _ => false

/- ===================== Helper lemmas ===================== -/

/-- The accumulator-passing loop of `String.intercalate` appends the
separator-value pairs to its accumulator. -/
theorem intercalate_go_eq (sep : String) :
    ∀ (l : List String) (acc : String),
    String.intercalate.go acc sep l = acc ++ joined_tail sep l := by
  intro l
  induction l with
  | nil =>
      intro acc
      simp [String.intercalate.go, joined_tail]
  | cons a as ih =>
      intro acc
      simp [String.intercalate.go, joined_tail, ih, String.append_assoc]

/-- Unfolding of the vector serialiser on a nonempty list. -/
theorem serialize_vector_cons (sep : String) :
    ∀ (l : List String) (a : String),
    serialize_vector_by_string (a :: l) sep = a ++ joined_tail sep l := by
  intro l
  induction l with
  | nil =>
      intro a
      simp [serialize_vector_by_string, joined_tail]
  | cons w rest ih =>
      intro a
      simp [serialize_vector_by_string, joined_tail, ih w, String.append_assoc]

/-- The string vector serialiser is exactly `String.intercalate`. -/
theorem serialize_vector_eq_intercalate (l : List String) (sep : String) :
    serialize_vector_by_string l sep = String.intercalate sep l := by
  cases l with
  | nil => rfl
  | cons a as =>
      simp [String.intercalate, intercalate_go_eq, serialize_vector_cons]

/-- The numeric serialiser with a token is the string serialiser applied to
the values printed in decimal, each with the token prepended. -/
theorem serialize_with_token_eq_map (sep pfx : String) :
    ∀ l : List Nat,
    serialize_vector_by_string_with_prefix l sep pfx
      = serialize_vector_by_string (l.map (fun v => pfx ++ Nat.repr v)) sep := by
  intro l
  induction l with
  | nil => rfl
  | cons v rest ih =>
      cases rest with
      | nil => rfl
      | cons w ws =>
          simp only [List.map_cons] at ih ⊢
          simp [ serialize_vector_by_string_with_prefix, serialize_vector_by_string,
            ih, String.append_assoc]

/- ===================== Claim theorems (C1, C2) ===================== -/

/-- C1: the vector serialisers return the concatenation
`prefix+v1+sep+prefix+v2+...+prefix+vn` — stated as equality with
`String.intercalate` over the per-element strings `prefix ++ decimal(v)`,
which has exactly n such pieces joined by n−1 separators — the empty list
serialises to the empty string, and the two concrete test vectors hold:
`serialize_vector_by_string(["123","456"], ",") = "123,456"` and
`serialize_vector_by_string_with_prefix([123,456], ",", "^") = "^123,^456"`. -/
theorem vector_serialiser_correct :
    (∀ (l : List Nat) (sep pfx : String),
        serialize_vector_by_string_with_prefix l sep pfx
          = String.intercalate sep (l.map (fun v => pfx ++ Nat.repr v)))
    ∧ (∀ (l : List String) (sep : String),
        serialize_vector_by_string l sep = String.intercalate sep l)
    ∧ (∀ sep pfx : String, serialize_vector_by_string_with_prefix [] sep pfx = "")
    ∧ serialize_vector_by_string ["123", "456"] "," = "123,456"
    ∧ serialize_vector_by_string_with_prefix [123, 456] "," "^" = "^123,^456" := by
  refine ⟨?_, ?_, ?_, rfl, rfl⟩
  · intro l sep pfx
    rw [serialize_with_token_eq_map, serialize_vector_eq_intercalate]
  · intro l sep
    exact serialize_vector_eq_intercalate l sep
  · intro sep pfx
    rfl

/-- C2: the Flow Spec action serialiser emits exactly one action clause: a
default-constructed action serialises to "accept;", a discard action to
"discard;", and a rate-limit action with limit N to "rate-limit N;" with N
in decimal; in particular limit 1024 yields "rate-limit 1024;". -/
theorem bgp_flow_spec_action_serialize_correct :
    bgp_flow_spec_action_t.serialize {} = "accept;"
    ∧ (∀ a : bgp_flow_spec_action_t,
        (a.set_type bgp_flow_spec_action_types_t.FLOW_SPEC_ACTION_DISCARD).serialize
          = "discard;")
    ∧ (∀ (a : bgp_flow_spec_action_t) (n : Nat),
        ((a.set_type bgp_flow_spec_action_types_t.FLOW_SPEC_ACTION_RATE_LIMIT).set_rate_limit n).serialize
          = "rate-limit " ++ Nat.repr n ++ ";")
    ∧ ((({} : bgp_flow_spec_action_t).set_type
          bgp_flow_spec_action_types_t.FLOW_SPEC_ACTION_RATE_LIMIT).set_rate_limit 1024).serialize
        = "rate-limit 1024;" :=
  ⟨rfl, fun _ => rfl, fun _ _ => rfl, rfl⟩

/-- C7: a default-constructed `ban_settings_t` has every enable flag false
and every numeric threshold zero, and a rule whose enable flag is false
never fires whatever its threshold and the measured rate. -/
theorem ban_settings_defaults_correct :
    default_ban_settings.enable_ban = false
    ∧ default_ban_settings.enable_ban_ipv6 = false
    ∧ default_ban_settings.enable_ban_for_pps = false
    ∧ default_ban_settings.enable_ban_for_bandwidth = false
    ∧ default_ban_settings.enable_ban_for_flows_per_second = false
    ∧ default_ban_settings.enable_ban_for_tcp_pps = false
    ∧ default_ban_settings.enable_ban_for_tcp_bandwidth = false
    ∧ default_ban_settings.enable_ban_for_udp_pps = false
    ∧ default_ban_settings.enable_ban_for_udp_bandwidth = false
    ∧ default_ban_settings.enable_ban_for_icmp_pps = false
    ∧ default_ban_settings.enable_ban_for_icmp_bandwidth = false
    ∧ default_ban_settings.ban_threshold_tcp_mbps = 0
    ∧ default_ban_settings.ban_threshold_tcp_pps = 0
    ∧ default_ban_settings.ban_threshold_udp_mbps = 0
    ∧ default_ban_settings.ban_threshold_udp_pps = 0
    ∧ default_ban_settings.ban_threshold_icmp_mbps = 0
    ∧ default_ban_settings.ban_threshold_icmp_pps = 0
    ∧ default_ban_settings.ban_threshold_mbps = 0
    ∧ default_ban_settings.ban_threshold_flows = 0
    ∧ default_ban_settings.ban_threshold_pps = 0
    ∧ (∀ threshold rate : Nat, ban_rule_fires false threshold rate = false) := by
  refine ⟨rfl, rfl, rfl, rfl, rfl, rfl, rfl, rfl, rfl, rfl, rfl, rfl, rfl, rfl,
    rfl, rfl, rfl, rfl, rfl, rfl, ?_⟩
  intro threshold rate
  rfl

/-- C9: the traffic comparator is a strict comparison for every sort
direction and sort field: it is irreflexive, it is never true for a pair in
both orders, and it is identically false when the sort direction is neither
INCOMING nor OUTGOING (the INTERNAL and OTHER directions). -/
theorem traffic_comparator_strict :
    ∀ (d : direction_t) (f : sort_type_t) (a b : Nat × subnet_counter_t),
    TrafficComparatorClass_compare d f a a = false
    ∧ (TrafficComparatorClass_compare d f a b
        && TrafficComparatorClass_compare d f b a) = false
    ∧ TrafficComparatorClass_compare direction_t.INTERNAL f a b = false
    ∧ TrafficComparatorClass_compare direction_t.OTHER f a b = false := by
  intro d f a b
  refine ⟨?_, ?_, ?_, ?_⟩
  · cases d <;> cases f <;> simp [TrafficComparatorClass_compare]
  · cases d <;> cases f <;>
      simp [TrafficComparatorClass_compare, Bool.and_eq_false_iff,
        decide_eq_false_iff_not] <;> omega
  · cases f <;> simp [TrafficComparatorClass_compare]
  · cases f <;> simp [TrafficComparatorClass_compare]

/-- C3: a failed `generate_uuid` (the random generator throws) returns
`false` without propagating the exception and leaves the record untouched —
so an attack record on which generation failed, or was never attempted,
still carries the sentinel all-zero UUID and remains usable. -/
theorem generate_uuid_failure_safe :
    (∀ a : attack_details_t, a.generate_uuid none = (a, false))
    ∧ default_attack_details.attack_uuid = zero_uuid
    ∧ (default_attack_details.generate_uuid none).1.attack_uuid = zero_uuid
    ∧ uuid_to_string (default_attack_details.generate_uuid none).1.attack_uuid
        = "00000000-0000-0000-0000-000000000000" := by
  refine ⟨fun a => rfl, rfl, rfl, ?_⟩
  rfl

/-- C10: a default-constructed `attack_details_t` has unban enabled, an
indefinite (zero) ban time, direction OTHER, zero initial and peak powers,
middle severity, the unknown triggering threshold, and the all-zero UUID,
whose textual form is the zero UUID string; its protocol name is "IPv4". -/
theorem attack_details_defaults_correct :
    default_attack_details.unban_enabled = true
    ∧ default_attack_details.ban_time = 0
    ∧ default_attack_details.attack_direction = direction_t.OTHER
    ∧ default_attack_details.attack_power = 0
    ∧ default_attack_details.max_attack_power = 0
    ∧ default_attack_details.attack_severity = attack_severity_t.ATTACK_SEVERITY_MIDDLE
    ∧ default_attack_details.attack_detection_threshold = attack_detection_threshold_type_t.unknown
    ∧ default_attack_details.attack_uuid = zero_uuid
    ∧ default_attack_details.get_attack_uuid_as_string
        = "00000000-0000-0000-0000-000000000000"
    ∧ default_attack_details.get_protocol_name = "IPv4" := by
  refine ⟨rfl, rfl, rfl, rfl, rfl, rfl, rfl, rfl, ?_, rfl⟩
  rfl

/-- Every hit of the Patricia search is an inserted prefix covering the
address. -/
theorem patricia_search_best_sound (w a : Nat) :
    ∀ (l : List prefix_t) (q : prefix_t),
    patricia_search_best w a l = some q →
    q ∈ l ∧ prefix_covers_address w q a = true := by
  intro l
  induction l with
  | nil =>
      intro q h
      simp [patricia_search_best] at h
  | cons p rest ih =>
      intro q h
      cases hrec : patricia_search_best w a rest with
      | none =>
          simp only [patricia_search_best, hrec] at h
          by_cases hc : prefix_covers_address w p a = true
          · rw [if_pos hc] at h
            injection h with h
            subst h
            exact ⟨List.mem_cons_self _ _, hc⟩
          · rw [if_neg hc] at h
            exact Option.noConfusion h
      | some q' =>
          simp only [patricia_search_best, hrec] at h
          rcases ih q' hrec with ⟨hmem, hcov⟩
          by_cases hcond : (prefix_covers_address w p a
              && decide (q'.bitlen < p.bitlen)) = true
          · rw [if_pos hcond] at h
            injection h with h
            subst h
            rw [Bool.and_eq_true] at hcond
            exact ⟨List.mem_cons_self _ _, hcond.1⟩
          · rw [if_neg hcond] at h
            injection h with h
            subst h
            exact ⟨List.mem_cons_of_mem _ hmem, hcov⟩

/-- C4: the Patricia longest-prefix match never misses: for every inserted
prefix P covering an address A, `search_best` on A returns an inserted
prefix that covers A and is at least as long as P (P itself or a longer
one). -/
theorem patricia_search_best_no_miss (w a : Nat) :
    ∀ (l : List prefix_t) (p : prefix_t), p ∈ l →
    prefix_covers_address w p a = true →
    ∃ q, patricia_search_best w a l = some q ∧ q ∈ l
      ∧ prefix_covers_address w q a = true ∧ p.bitlen ≤ q.bitlen := by
  intro l
  induction l with
  | nil =>
      intro p hp
      simp at hp
  | cons hd rest ih =>
      intro p hp hcov
      rcases List.mem_cons.mp hp with rfl | hmem
      · cases hrec : patricia_search_best w a rest with
        | none =>
            refine ⟨p, ?_, List.mem_cons_self _ _, hcov, Nat.le_refl _⟩
            simp only [patricia_search_best, hrec]
            rw [if_pos hcov]
        | some q' =>
            rcases patricia_search_best_sound w a rest q' hrec with ⟨hmem', hcov'⟩
            by_cases hb : q'.bitlen < p.bitlen
            · have hcond : (prefix_covers_address w p a
                  && decide (q'.bitlen < p.bitlen)) = true := by
                rw [hcov, decide_eq_true hb, Bool.and_self]
              refine ⟨p, ?_, List.mem_cons_self _ _, hcov, Nat.le_refl _⟩
              simp only [patricia_search_best, hrec]
              rw [if_pos hcond]
            · have hcond : ¬((prefix_covers_address w p a
                  && decide (q'.bitlen < p.bitlen)) = true) := by
                rw [decide_eq_false hb, Bool.and_false]
                simp
              refine ⟨q', ?_, List.mem_cons_of_mem _ hmem', hcov', Nat.le_of_not_lt hb⟩
              simp only [patricia_search_best, hrec]
              rw [if_neg hcond]
      · rcases ih p hmem hcov with ⟨q', hq'eq, hq'mem, hq'cov, hq'len⟩
        by_cases hcond : (prefix_covers_address w hd a
            && decide (q'.bitlen < hd.bitlen)) = true
        · have hcond' := hcond
          rw [Bool.and_eq_true] at hcond'
          rcases hcond' with ⟨hc1, hc2⟩
          have hlt : q'.bitlen < hd.bitlen := of_decide_eq_true hc2
          refine ⟨hd, ?_, List.mem_cons_self _ _, hc1,
            Nat.le_of_lt (Nat.lt_of_le_of_lt hq'len hlt)⟩
          simp only [patricia_search_best, hq'eq]
          rw [if_pos hcond]
        · refine ⟨q', ?_, List.mem_cons_of_mem _ hq'mem, hq'cov, hq'len⟩
          simp only [patricia_search_best, hq'eq]
          rw [if_neg hcond]

/-- Witness for C4: the trie holding exactly 2a03:f480::/32 and the address
2a03:f480:2130:cf05:face:b00c::1 inside it. -/
theorem patricia_search_best_no_miss_witness :
    ∃ q, patricia_search_best 128 inside_address_v6 [test_prefix_v6] = some q
      ∧ q ∈ [test_prefix_v6]
      ∧ prefix_covers_address 128 q inside_address_v6 = true
      ∧ test_prefix_v6.bitlen ≤ q.bitlen :=
  patricia_search_best_no_miss 128 inside_address_v6 [test_prefix_v6] test_prefix_v6
    (List.mem_singleton.mpr rfl) (by decide)

/-- C5: in a 128-bit trie holding exactly 2a03:f480::/32, looking up
2a03:2880:2130:cf05:face:b00c::1 misses and looking up
2a03:f480:2130:cf05:face:b00c::1 hits. -/
theorem patricia_v6_lookup_scenarios :
    patricia_search_best 128 outside_address_v6 [test_prefix_v6] = none
    ∧ (patricia_search_best 128 inside_address_v6 [test_prefix_v6]).isSome = true := by
  constructor
  · decide
  · decide

/-- A successful `List.find?` returns the first satisfying element: the
element satisfies the test and everything before it refutes it. -/
theorem find_eq_some_split {α : Type} (p : α → Bool) :
    ∀ (l : List α) (a : α), l.find? p = some a →
    p a = true ∧ ∃ l1 l2, l = l1 ++ a :: l2 ∧ ∀ b ∈ l1, p b = false := by
  intro l
  induction l with
  | nil =>
      intro a h
      simp [List.find?] at h
  | cons x xs ih =>
      intro a h
      cases hx : p x with
      | true =>
          rw [List.find?_cons_of_pos _ hx] at h
          cases h
          exact ⟨hx, [], xs, rfl, by simp⟩
      | false =>
          rw [List.find?_cons_of_neg _ (by simp [hx])] at h
          rcases ih a h with ⟨hpa, l1, l2, hsplit, hall⟩
          refine ⟨hpa, x :: l1, l2, by rw [hsplit]; rfl, ?_⟩
          intro b hb
          rcases List.mem_cons.mp hb with rfl | hb'
          · exact hx
          · exact hall b hb'

/-- C6: the reported triggering threshold is determined by the fixed
priority order: whatever set of rules exceeds, the selected threshold
exceeds and every rule strictly earlier in the priority order does not; in
particular a host whose TCP-SYN pps and overall pps rules both exceed
reports tcp_syn_packets_per_second. -/
theorem threshold_tie_break_priority :
    (∀ (exceeds : attack_detection_threshold_type_t → Bool)
        (t : attack_detection_threshold_type_t),
      select_triggered_threshold exceeds = some t →
      exceeds t = true
      ∧ ∃ l1 l2, attack_detection_priority_order = l1 ++ t :: l2
          ∧ ∀ t' ∈ l1, exceeds t' = false)
    ∧ select_triggered_threshold syn_and_total_exceed
        = some attack_detection_threshold_type_t.tcp_syn_packets_per_second := by
  constructor
  · intro exceeds t h
    exact find_eq_some_split exceeds attack_detection_priority_order t h
  · rfl

/-- Witness for C6: the profile with TCP-SYN pps and overall pps both
exceeding selects tcp_syn_packets_per_second, which exceeds, and every rule
before it in the priority order does not. -/
theorem threshold_tie_break_priority_witness :
    syn_and_total_exceed attack_detection_threshold_type_t.tcp_syn_packets_per_second = true
    ∧ ∃ l1 l2, attack_detection_priority_order
          = l1 ++ attack_detection_threshold_type_t.tcp_syn_packets_per_second :: l2
        ∧ ∀ t' ∈ l1, syn_and_total_exceed t' = false :=
  threshold_tie_break_priority.1 syn_and_total_exceed
    attack_detection_threshold_type_t.tcp_syn_packets_per_second rfl

/-- C8: the attack description of a blank (default-constructed) attack is
exactly the fixed prose blob of the sample scenario, every label, zero
value and line in order. -/
theorem serialize_attack_description_blank :
    serialize_attack_description default_attack_details =
      "Attack type: unknown\n"
      ++ "Initial attack power: 0 packets per second\n"
      ++ "Peak attack power: 0 packets per second\n"
      ++ "Attack direction: other\n"
      ++ "Attack protocol: unknown\n"
      ++ "Total incoming traffic: 0 mbps\n"
      ++ "Total outgoing traffic: 0 mbps\n"
      ++ "Total incoming pps: 0 packets per second\n"
      ++ "Total outgoing pps: 0 packets per second\n"
      ++ "Total incoming flows: 0 flows per second\n"
      ++ "Total outgoing flows: 0 flows per second\n"
      ++ "Average incoming traffic: 0 mbps\n"
      ++ "Average outgoing traffic: 0 mbps\n"
      ++ "Average incoming pps: 0 packets per second\n"
      ++ "Average outgoing pps: 0 packets per second\n"
      ++ "Average incoming flows: 0 flows per second\n"
      ++ "Average outgoing flows: 0 flows per second\n"
      ++ "Incoming ip fragmented traffic: 0 mbps\n"
      ++ "Outgoing ip fragmented traffic: 0 mbps\n"
      ++ "Incoming ip fragmented pps: 0 packets per second\n"
      ++ "Outgoing ip fragmented pps: 0 packets per second\n"
      ++ "Incoming tcp traffic: 0 mbps\n"
      ++ "Outgoing tcp traffic: 0 mbps\n"
      ++ "Incoming tcp pps: 0 packets per second\n"
      ++ "Outgoing tcp pps: 0 packets per second\n"
      ++ "Incoming syn tcp traffic: 0 mbps\n"
      ++ "Outgoing syn tcp traffic: 0 mbps\n"
      ++ "Incoming syn tcp pps: 0 packets per second\n"
      ++ "Outgoing syn tcp pps: 0 packets per second\n"
      ++ "Incoming udp traffic: 0 mbps\n"
      ++ "Outgoing udp traffic: 0 mbps\n"
      ++ "Incoming udp pps: 0 packets per second\n"
      ++ "Outgoing udp pps: 0 packets per second\n"
      ++ "Incoming icmp traffic: 0 mbps\n"
      ++ "Outgoing icmp traffic: 0 mbps\n"
      ++ "Incoming icmp pps: 0 packets per second\n"
      ++ "Outgoing icmp pps: 0 packets per second\n" := by
  rfl
